import Mathlib

/-!
# Verification of the multi-factor stock scoring engine

Shallow embedding of the scoring core of `evaluate_stocks.py`:
the indicator engine (`calc_ma` .. `calc_vwap`), the eight dimension
scorers (`score_technical` .. `score_news`), the composite evaluator
(`evaluate_single`) and the batch sector-heat pass (`_apply_sector_heat`).

Modelling conventions, used consistently below:

* a pandas float cell is modelled as `Option ℚ`; `none` models NaN
  ("not available").  Arithmetic propagates `none`, and every ordered
  comparison against a `none` operand is `false`, exactly as a comparison
  against float NaN is `False` in Python.
* division is modelled as unavailable (`none`) when the denominator is
  zero.  In floating point `0/0` is NaN (matching `none`) while `x/0`
  with `x ≠ 0` is `±inf`; inside this pipeline the latter can only arise
  from degenerate inputs (e.g. a strictly one-sided RSI history or
  OHLC-inconsistent rows) and never on the concrete inputs evaluated in
  the theorems of this file.
* `ewm(..., adjust=False)` is the standard recursion seeded by the first
  available value; a `none` observation yields a `none` output and leaves
  the running state untouched.  `ewm(alpha, min_periods, adjust=True)`
  (used only by RSI) keeps a weighted numerator/denominator pair.
* rolling windows use the pandas default `min_periods = window`: the
  output is `none` until the window is full or when the window contains
  a `none`.
* string formatting inside signal messages is elided: each signal string
  of the source is represented by a dedicated constructor of `Signal`
  identifying the rule that fired, so firing order and multiplicity are
  preserved.
-/

namespace StockEval

/-- Series of float cells; `none` models NaN. -/
abbrev RS := List (Option ℚ)

/-- Pointwise binary operation propagating NaN. -/
def om2 (f : ℚ → ℚ → ℚ) : Option ℚ → Option ℚ → Option ℚ
  | some a, some b => some (f a b)
  | _, _ => none

/-- NaN-propagating division, unavailable on a zero denominator. -/
def odiv : Option ℚ → Option ℚ → Option ℚ
  | some a, some b => if b = 0 then none else some (a / b)
  | _, _ => none

/-- Elementwise sum of two series. -/
def sadd (a b : RS) : RS := List.zipWith (om2 (· + ·)) a b

/-- Elementwise difference of two series. -/
def ssub (a b : RS) : RS := List.zipWith (om2 (· - ·)) a b

/-- Elementwise product of two series. -/
def smul (a b : RS) : RS := List.zipWith (om2 (· * ·)) a b

/-- Elementwise quotient of two series. -/
def sdiv (a b : RS) : RS := List.zipWith odiv a b

/-- Scalar multiple of a series. -/
def smulC (c : ℚ) (a : RS) : RS := a.map (Option.map (c * ·))

/-- Scalar shift of a series (`c + x`). -/
def saddC (c : ℚ) (a : RS) : RS := a.map (Option.map (c + ·))

/-- Elementwise absolute value. -/
def sabs (a : RS) : RS := a.map (Option.map (|·|))

/-- Elementwise negation. -/
def sneg (a : RS) : RS := a.map (Option.map (- ·))

/-- Pandas `Series.diff()`: first cell NaN, then successive differences. -/
def diffS (xs : RS) : RS :=
  match xs with
  | [] => []
  | _ :: _ => none :: List.zipWith (om2 (· - ·)) (xs.drop 1) xs

/-- Pandas `Series.shift()`: first cell NaN, then the previous cell. -/
def shiftS (xs : RS) : RS :=
  match xs with
  | [] => []
  | _ :: _ => none :: xs.dropLast

/-- Collect a window; `none` as soon as one cell is NaN. -/
def allSomeL : RS → Option (List ℚ)
  | [] => some []
  | none :: _ => none
  | some x :: rest => (allSomeL rest).map (x :: ·)

/-- Mean of a bare list of rationals. -/
def meanQ (l : List ℚ) : ℚ := l.sum / (l.length : ℚ)

/-- Maximum of a list (0 on the empty list, never used there). -/
def listMax : List ℚ → ℚ
  | [] => 0
  | x :: xs => xs.foldl max x

/-- Minimum of a list (0 on the empty list, never used there). -/
def listMin : List ℚ → ℚ
  | [] => 0
  | x :: xs => xs.foldl min x

/-- Sample variance (`ddof=1`), the convention of pandas `rolling.std`.
The bands only ever use the variance through comparisons that encode
`mid ± 2·√var` exactly, see `score_technical`. -/
def sampleVar (l : List ℚ) : ℚ :=
  if l.length ≤ 1 then 0
  else (l.map (fun x => (x - meanQ l) ^ 2)).sum / ((l.length - 1 : ℕ) : ℚ)

/-- Mean absolute deviation, as in `calc_cci`. -/
def madQ (l : List ℚ) : ℚ := meanQ (l.map (fun x => |x - meanQ l|))

/-- Worker for rolling windows: `rev` is the reversed prefix seen so far.
The window is handed to `f` in reversed order; every `f` used below is
symmetric, so this is immaterial. -/
def rollingAux (w : ℕ) (f : List ℚ → ℚ) : RS → RS → RS
  | _, [] => []
  | rev, x :: rest =>
    let rp := x :: rev
    let win := rp.take w
    (if win.length < w then none else (allSomeL win).map f)
      :: rollingAux w f rp rest

/-- Pandas `rolling(window=w).apply(f)` with the default `min_periods`. -/
def rollingApply (w : ℕ) (f : List ℚ → ℚ) (xs : RS) : RS :=
  rollingAux w f [] xs

/-- Rolling mean. -/
def rollingMean (w : ℕ) (xs : RS) : RS := rollingApply w meanQ xs

/-- Rolling sum. -/
def rollingSum (w : ℕ) (xs : RS) : RS := rollingApply w List.sum xs

/-- Rolling maximum. -/
def rollingMax (w : ℕ) (xs : RS) : RS := rollingApply w listMax xs

/-- Rolling minimum. -/
def rollingMin (w : ℕ) (xs : RS) : RS := rollingApply w listMin xs

/-- Worker for `ewm(adjust=False)`; see the module docstring for the NaN
convention. -/
def ewmAFAux (a : ℚ) : Option ℚ → RS → RS
  | _, [] => []
  | st, none :: rest => none :: ewmAFAux a st rest
  | none, some x :: rest => some x :: ewmAFAux a (some x) rest
  | some m, some x :: rest =>
    let y := (1 - a) * m + a * x
    some y :: ewmAFAux a (some y) rest

/-- Pandas `ewm(..., adjust=False).mean()` with smoothing factor `a`.
`span=s` corresponds to `a = 2/(s+1)`, `com=c` to `a = 1/(1+c)`. -/
def ewmAdjFalse (a : ℚ) (xs : RS) : RS := ewmAFAux a none xs

/-- Worker for `ewm(adjust=True)` keeping weighted numerator/denominator
and the count of observations (for `min_periods`). -/
def ewmATAux (a : ℚ) (minp : ℕ) : ℚ → ℚ → ℕ → RS → RS
  | _, _, _, [] => []
  | num, den, cnt, none :: rest =>
    none :: ewmATAux a minp ((1 - a) * num) ((1 - a) * den) cnt rest
  | num, den, cnt, some x :: rest =>
    let num' := (1 - a) * num + x
    let den' := (1 - a) * den + 1
    let cnt' := cnt + 1
    (if cnt' < minp then none else some (num' / den'))
      :: ewmATAux a minp num' den' cnt' rest

/-- Pandas `ewm(alpha=a, min_periods=minp).mean()` (default `adjust=True`),
used only by `calc_rsi`. -/
def ewmAdjTrue (a : ℚ) (minp : ℕ) (xs : RS) : RS := ewmATAux a minp 0 0 0 xs

/-- Pandas `Series.cumsum()` (default `skipna=True`): NaN cells stay NaN,
accumulation continues past them. -/
def cumsumAux (acc : ℚ) : RS → RS
  | [] => []
  | none :: rest => none :: cumsumAux acc rest
  | some x :: rest => some (acc + x) :: cumsumAux (acc + x) rest

/-- Cumulative sum skipping NaN. -/
def cumsumSkipNA (xs : RS) : RS := cumsumAux 0 xs

/-- Row-wise maximum of three cells skipping NaN (`pd.concat(...).max(axis=1)`). -/
def rowMax3 : Option ℚ → Option ℚ → Option ℚ → Option ℚ
  | none, none, none => none
  | a, b, c =>
    some (listMax ([a, b, c].filterMap id))

/-- `np.sign`. -/
def signQ (q : ℚ) : ℚ := if 0 < q then 1 else if q < 0 then -1 else 0

/-- Mean of the available cells (`Series.mean()`, `skipna=True`);
`none` when no cell is available. -/
def meanSkipNA (xs : RS) : Option ℚ :=
  let vs := xs.filterMap id
  if vs.isEmpty then none else some (meanQ vs)

/-- Last cell of a series, flattened (`iloc[-1]` of one column). -/
def lastO (xs : RS) : Option ℚ := xs.getLast?.join

/-- Second-to-last cell of a series, flattened (`iloc[-2]`). -/
def prevO (xs : RS) : Option ℚ := xs.dropLast.getLast?.join

/-- Comparison `cell > c`; `false` on NaN, as in Python. -/
def optGtB (o : Option ℚ) (c : ℚ) : Bool :=
  match o with
  | some v => decide (c < v)
  | none => false

/-- Comparison `cell < c`; `false` on NaN. -/
def optLtB (o : Option ℚ) (c : ℚ) : Bool :=
  match o with
  | some v => decide (v < c)
  | none => false

/-- Comparison `cell₁ > cell₂`; `false` if either is NaN. -/
def optGtOptB (a b : Option ℚ) : Bool :=
  match a, b with
  | some x, some y => decide (y < x)
  | _, _ => false

/-- Comparison `|cell| < c`; `false` on NaN. -/
def optAbsLtB (o : Option ℚ) (c : ℚ) : Bool :=
  match o with
  | some v => decide (|v| < c)
  | none => false

/-!
## Data model

`PriceBar` models one row of the daily CSV after `load_daily_data` has
applied `pd.to_numeric(errors="coerce")`: the core OHLCV fields are
plain rationals, the optional fields (`turn`, `pctChg`, valuation
ratios) are NaN-able cells.  `isST`/`tradestatus` carry the raw numeric
flags compared against `"1"`/`"0"` in the source.

Presentation-only fields of the source result dict (display name, board
label, industry/concept/region/style strings) are not modelled; the
sector-heat pass reads concept tags through the `boards` lookup passed
explicitly (the source reads the process-wide `load_boards()` cache).
-/

/-- One daily bar. -/
structure PriceBar where
  date : ℕ
  openP : ℚ
  high : ℚ
  low : ℚ
  close : ℚ
  preclose : ℚ
  volume : ℚ
  amount : Option ℚ
  turn : Option ℚ
  pctChg : Option ℚ
  peTTM : Option ℚ
  pbMRQ : Option ℚ
  psTTM : Option ℚ
  isST : ℕ
  tradestatus : ℕ
  deriving DecidableEq, Repr, Inhabited

/-- One capital-flow record as built by `fetch_capital_flow`. -/
structure FlowRec where
  date : ℕ
  main_net : ℚ
  main_pct : ℚ
  super_net : ℚ
  big_net : ℚ
  deriving DecidableEq, Repr, Inhabited

/-- One news item as built by `fetch_news`: the time field is an ordinal
used only for the newest-first ordering of the displayed titles. -/
structure NewsItem where
  title : String
  time : ℕ
  weight : ℚ
  deriving DecidableEq, Repr, Inhabited

/-- Tag of a fundamentals row (`data_type` column). -/
inductive FinType
  | profit
  | growth
  deriving DecidableEq, Repr

/-- One fundamentals row, cells after `pd.to_numeric(errors="coerce")`. -/
structure FinRow where
  dataType : FinType
  statDate : ℕ
  roeAvg : Option ℚ
  YOYEquity : Option ℚ
  YOYNI : Option ℚ
  gpMargin : Option ℚ
  deriving DecidableEq, Repr

/-- Recommendation tier.  `strongBuy` is the source string
`** 强烈买入`, `buy` is `*  建议买入`, `watch` is `-  观望`,
`sell` is `*  建议卖出`, `strongSell` is `** 强烈卖出`. -/
inductive Action
  | strongBuy
  | buy
  | watch
  | sell
  | strongSell
  deriving DecidableEq, Repr, Inhabited

/-- One constructor per signal string of `score_technical`; the
formatted numeric payloads of the strings are elided. -/
inductive TechSignal
  | maBull | maBear | maGold | maDead
  | macdGold | macdDead | macdHistUp | macdHistDown
  | rsiOversold | rsiLow | rsiOverbought | rsiHigh
  | kdjOversold | kdjOverbought | kdjGold | kdjDead
  | bollLower | bollUpper
  | volUpSurge | volDownSurge
  | adxStrongUp | adxStrongDown
  | wrOversold | wrOverbought
  | cciOversold | cciOverbought
  | obvRise | obvFall
  | lowVolBonus
  deriving DecidableEq, Repr

/-- Signal strings of `score_valuation`. -/
inductive ValSignal
  | peLow | peFair | peHigh | peVeryHigh | peNeg
  | pbLow | pbFair | pbHigh | pbVeryHigh
  | psLow | psFair | psHigh
  deriving DecidableEq, Repr

/-- Signal strings of `score_fundamental`. -/
inductive FundSignal
  | roeTop | roeGood | roeNeg
  | revTop | revGood | revNeg
  | niTop | niGood | niNeg
  | gpTop | gpGood | gpNeg
  deriving DecidableEq, Repr

/-- Signal strings of `score_risk`. -/
inductive RiskSignal
  | riskST | riskHalt | riskHighVol | riskIlliquid
  deriving DecidableEq, Repr

/-- Signal strings of `score_momentum`. -/
inductive MomSignal
  | mom5Deep | mom5Pull | mom5Up | mom5Surge
  | mom20Deep | mom20Surge
  | momConsec3 | momConsec1
  | momNearLow | momNearHigh
  deriving DecidableEq, Repr

/-- Signal strings of `score_flow` (both paths). -/
inductive FlowSignal
  | flowTotalIn6 | flowTotalIn3 | flowTotalOut6 | flowTotalOut3
  | flowConsecIn4 | flowConsecIn2 | flowConsecOut4
  | flowPctPos5 | flowPctPos3 | flowPctNeg5 | flowPctNeg3
  | flowSummary (period : ℕ)
  | flowVolUp5 | flowVolUp3 | flowStabilize
  | flowTurnAccel | flowTurnWarm | flowBlowOff | flowQuietDecline
  deriving DecidableEq, Repr

/-- Signal strings of `score_news`. -/
inductive NewsSignal
  | newsGeminiPos | newsGeminiNeg | newsGeminiNeu | newsTitleLine
  | newsMajorPosHit | newsMajorNegHit
  | newsDictPos | newsDictNeg | newsDictNeu | newsMatchedLine
  deriving DecidableEq, Repr

/-- Signal strings of `_apply_sector_heat`. -/
inductive HeatSignal
  | heatHot | heatActive | heatWarm | heatDim | heatCool
  | heatMulti4 | heatMulti2
  deriving DecidableEq, Repr

/-- Minimum number of history rows (`MIN_ROWS`). -/
def MIN_ROWS : ℕ := 60

/-!
## Indicator engine

Each `calc_*` mirrors the pandas column construction of the source.
The only departure: `calc_boll` carries the rolling sample *variance*
instead of the standard deviation, so that everything stays inside `ℚ`;
`score_technical` compares against the bands `mid ± 2·σ` through the
exact equivalences `mid - c ≥ 2·σ ↔ mid - c ≥ 0 ∧ (mid - c)² ≥ 4·var`
(both sides nonnegative, squaring is monotone). -/

/-- Close column. -/
def closeS (bars : List PriceBar) : RS := bars.map (fun b => some b.close)

/-- High column. -/
def highS (bars : List PriceBar) : RS := bars.map (fun b => some b.high)

/-- Low column. -/
def lowS (bars : List PriceBar) : RS := bars.map (fun b => some b.low)

/-- Volume column. -/
def volumeS (bars : List PriceBar) : RS := bars.map (fun b => some b.volume)

/-- `calc_ma`: simple rolling mean of close. -/
def calc_MA (p : ℕ) (bars : List PriceBar) : RS := rollingMean p (closeS bars)

/-- `calc_macd` DIF column: EMA12(close) − EMA26(close). -/
def calc_DIF (bars : List PriceBar) : RS :=
  ssub (ewmAdjFalse (2 / 13) (closeS bars)) (ewmAdjFalse (2 / 27) (closeS bars))

/-- `calc_macd` DEA column: EMA9 of DIF. -/
def calc_DEA (bars : List PriceBar) : RS := ewmAdjFalse (1 / 5) (calc_DIF bars)

/-- `calc_macd` MACD histogram: `2*(DIF - DEA)`. -/
def calc_MACD (bars : List PriceBar) : RS :=
  smulC 2 (ssub (calc_DIF bars) (calc_DEA bars))

/-- `calc_rsi` (period 14, Wilder smoothing `alpha = 1/14`). -/
def calc_RSI (bars : List PriceBar) : RS :=
  let delta := diffS (closeS bars)
  let gain := delta.map (fun d =>
    match d with
    | some v => some (if 0 < v then v else 0)
    | none => some 0)
  let loss := delta.map (fun d =>
    match d with
    | some v => some (if v < 0 then -v else 0)
    | none => some (-0))
  let avg_gain := ewmAdjTrue (1 / 14) 14 gain
  let avg_loss := ewmAdjTrue (1 / 14) 14 loss
  let rs := sdiv avg_gain avg_loss
  (saddC 1 rs).map (fun r => om2 (· - ·) (some 100) (odiv (some 100) r))

/-- `calc_kdj` RSV column: range position in the 9-period window scaled
to 100, NaN filled with 50. -/
def calc_RSV (bars : List PriceBar) : RS :=
  let low_n := rollingMin 9 (lowS bars)
  let high_n := rollingMax 9 (highS bars)
  let rsv := smulC 100 (sdiv (ssub (closeS bars) low_n) (ssub high_n low_n))
  rsv.map (fun o => some (o.getD 50))

/-- `calc_kdj` K column: EWM (com = 2) of RSV. -/
def calc_K (bars : List PriceBar) : RS := ewmAdjFalse (1 / 3) (calc_RSV bars)

/-- `calc_kdj` D column: EWM (com = 2) of K. -/
def calc_D (bars : List PriceBar) : RS := ewmAdjFalse (1 / 3) (calc_K bars)

/-- `calc_kdj` J column: `3*K - 2*D`. -/
def calc_J (bars : List PriceBar) : RS :=
  ssub (smulC 3 (calc_K bars)) (smulC 2 (calc_D bars))

/-- `calc_boll` middle band: 20-day SMA of close. -/
def calc_BOLL_MID (bars : List PriceBar) : RS := rollingMean 20 (closeS bars)

/-- `calc_boll` rolling sample variance of close (the square of the
`rolling.std` used by the source). -/
def calc_BOLL_VAR (bars : List PriceBar) : RS :=
  rollingApply 20 sampleVar (closeS bars)

/-- `calc_volume_indicators` VOL_MA5. -/
def calc_VOL_MA5 (bars : List PriceBar) : RS := rollingMean 5 (volumeS bars)

/-- `calc_volume_indicators` volume ratio (`VOL_RATIO` in the source;
renamed because of a lexical restriction on the suffix). -/
def calc_VOL_RAT (bars : List PriceBar) : RS :=
  sdiv (volumeS bars) (calc_VOL_MA5 bars)

/-- True range used by `calc_dmi_adx` and `calc_atr`. -/
def calc_TR (bars : List PriceBar) : RS :=
  let tr1 := ssub (highS bars) (lowS bars)
  let tr2 := sabs (ssub (highS bars) (shiftS (closeS bars)))
  let tr3 := sabs (ssub (lowS bars) (shiftS (closeS bars)))
  List.zipWith₃ rowMax3 tr1 tr2 tr3

/-- `calc_dmi_adx` masked +DM column. -/
def calc_PLUS_DM (bars : List PriceBar) : RS :=
  let plus := diffS (highS bars)
  let minus := sneg (diffS (lowS bars))
  List.zipWith (fun p m =>
    match p, m with
    | some pv, some mv => some (if mv < pv ∧ 0 < pv then pv else 0)
    | _, _ => some 0) plus minus

/-- `calc_dmi_adx` masked −DM column.  The source reassigns `plus_dm`
before building the −DM mask, so the comparison is against the already
masked +DM column. -/
def calc_MINUS_DM (bars : List PriceBar) : RS :=
  let plusMasked := calc_PLUS_DM bars
  let minus := sneg (diffS (lowS bars))
  List.zipWith (fun m p =>
    match m, p with
    | some mv, some pv => some (if pv < mv ∧ 0 < mv then mv else 0)
    | _, _ => some 0) minus plusMasked

/-- `calc_dmi_adx` +DI column. -/
def calc_PLUS_DI (bars : List PriceBar) : RS :=
  let atr := ewmAdjFalse (2 / 15) (calc_TR bars)
  smulC 100 (sdiv (ewmAdjFalse (2 / 15) (calc_PLUS_DM bars)) atr)

/-- `calc_dmi_adx` −DI column. -/
def calc_MINUS_DI (bars : List PriceBar) : RS :=
  let atr := ewmAdjFalse (2 / 15) (calc_TR bars)
  smulC 100 (sdiv (ewmAdjFalse (2 / 15) (calc_MINUS_DM bars)) atr)

/-- `calc_dmi_adx` ADX column: EMA14 of the DX spread. -/
def calc_ADX (bars : List PriceBar) : RS :=
  let pdi := calc_PLUS_DI bars
  let mdi := calc_MINUS_DI bars
  let dx := smulC 100 (sdiv (sabs (ssub pdi mdi)) (sadd pdi mdi))
  ewmAdjFalse (2 / 15) dx

/-- `calc_wr` Williams %R. -/
def calc_WR (bars : List PriceBar) : RS :=
  let high_n := rollingMax 14 (highS bars)
  let low_n := rollingMin 14 (lowS bars)
  smulC (-100) (sdiv (ssub high_n (closeS bars)) (ssub high_n low_n))

/-- Typical price used by `calc_cci`. -/
def calc_TP (bars : List PriceBar) : RS :=
  bars.map (fun b => some ((b.high + b.low + b.close) / 3))

/-- `calc_cci`. -/
def calc_CCI (bars : List PriceBar) : RS :=
  let tp := calc_TP bars
  let ma_tp := rollingMean 14 tp
  let md := rollingApply 14 madQ tp
  sdiv (ssub tp ma_tp) (smulC (15 / 1000) md)

/-- `calc_obv` OBV column: cumulative signed volume. -/
def calc_OBV (bars : List PriceBar) : RS :=
  let direction := (diffS (closeS bars)).map (Option.map signQ)
  cumsumSkipNA (smul direction (volumeS bars))

/-- `calc_obv` OBV_MA5 column. -/
def calc_OBV_MA5 (bars : List PriceBar) : RS := rollingMean 5 (calc_OBV bars)

/-- `calc_atr` ATR column: EMA14 of the true range. -/
def calc_ATR (bars : List PriceBar) : RS := ewmAdjFalse (2 / 15) (calc_TR bars)

/-- `calc_atr` ATR% column: `ATR / close * 100`. -/
def calc_ATR_PCT (bars : List PriceBar) : RS :=
  smulC 100 (sdiv (calc_ATR bars) (closeS bars))

/-- `calc_vwap`: 20-day volume weighted average price. -/
def calc_VWAP (bars : List PriceBar) : RS :=
  let cumvol := rollingSum 20 (volumeS bars)
  let cumtp := rollingSum 20 (smul (closeS bars) (volumeS bars))
  sdiv cumtp cumvol

/-- The DataFrame after `calc_all_indicators`: the raw bars plus every
derived column. -/
structure IndFrame where
  bars : List PriceBar
  MA5 : RS
  MA10 : RS
  MA20 : RS
  MA60 : RS
  DIF : RS
  DEA : RS
  MACD : RS
  RSI : RS
  K : RS
  D : RS
  J : RS
  BOLL_MID : RS
  BOLL_VAR : RS
  VOL_MA5 : RS
  VOL_RAT : RS
  ADX : RS
  PLUS_DI : RS
  MINUS_DI : RS
  WR : RS
  CCI : RS
  OBV : RS
  OBV_MA5 : RS
  ATR : RS
  ATR_PCT : RS
  VWAP : RS
  deriving Repr

/-- `calc_all_indicators`. -/
def calc_all_indicators (bars : List PriceBar) : IndFrame where
  bars := bars
  MA5 := calc_MA 5 bars
  MA10 := calc_MA 10 bars
  MA20 := calc_MA 20 bars
  MA60 := calc_MA 60 bars
  DIF := calc_DIF bars
  DEA := calc_DEA bars
  MACD := calc_MACD bars
  RSI := calc_RSI bars
  K := calc_K bars
  D := calc_D bars
  J := calc_J bars
  BOLL_MID := calc_BOLL_MID bars
  BOLL_VAR := calc_BOLL_VAR bars
  VOL_MA5 := calc_VOL_MA5 bars
  VOL_RAT := calc_VOL_RAT bars
  ADX := calc_ADX bars
  PLUS_DI := calc_PLUS_DI bars
  MINUS_DI := calc_MINUS_DI bars
  WR := calc_WR bars
  CCI := calc_CCI bars
  OBV := calc_OBV bars
  OBV_MA5 := calc_OBV_MA5 bars
  ATR := calc_ATR bars
  ATR_PCT := calc_ATR_PCT bars
  VWAP := calc_VWAP bars


/-!
## Dimension scorers
-/

/-- The last row of the scored DataFrame: the fields of the latest bar
that `score_valuation` / `score_risk` read, plus the latest cell of the
indicator columns they read. -/
structure Row where
  close : ℚ
  pctChg : Option ℚ
  peTTM : Option ℚ
  pbMRQ : Option ℚ
  psTTM : Option ℚ
  isST : ℕ
  tradestatus : ℕ
  ATR_PCT : Option ℚ
  VOL_RAT : Option ℚ
  deriving DecidableEq, Repr

/-- Build the latest `Row` from the frame and the latest bar
(`df.iloc[-1]` after `calc_all_indicators`). -/
def lastRow (fr : IndFrame) (b : PriceBar) : Row where
  close := b.close
  pctChg := b.pctChg
  peTTM := b.peTTM
  pbMRQ := b.pbMRQ
  psTTM := b.psTTM
  isST := b.isST
  tradestatus := b.tradestatus
  ATR_PCT := lastO fr.ATR_PCT
  VOL_RAT := lastO fr.VOL_RAT

/-- MA rule of `score_technical` (±8 nesting, ±5 crossover). -/
def maRule (fr : IndFrame) : ℤ × List TechSignal :=
  match lastO fr.MA5, lastO fr.MA10, lastO fr.MA20, lastO fr.MA60 with
  | some ma5, some ma10, some ma20, some ma60 =>
    if ma10 < ma5 ∧ ma20 < ma10 ∧ ma60 < ma20 then (8, [.maBull])
    else if ma5 < ma10 ∧ ma10 < ma20 ∧ ma20 < ma60 then (-8, [.maBear])
    else
      match prevO fr.MA5, prevO fr.MA10 with
      | some p5, some p10 =>
        if p5 ≤ p10 ∧ ma10 < ma5 then (5, [.maGold])
        else if p10 ≤ p5 ∧ ma5 < ma10 then (-5, [.maDead])
        else (0, [])
      | _, _ => (0, [])
  | _, _, _, _ => (0, [])

/-- MACD rule of `score_technical` (±6 crossover, ±1 histogram).  The
source gates on DIF/DEA availability only; the MACD histogram cells are
read separately and a NaN histogram comparison is `False`, hence the
inner match. -/
def macdRule (fr : IndFrame) : ℤ × List TechSignal :=
  match lastO fr.DIF, lastO fr.DEA, prevO fr.DIF, prevO fr.DEA with
  | some dif, some dea, some pdif, some pdea =>
    let cross : ℤ × List TechSignal :=
      if pdif ≤ pdea ∧ dea < dif then (6, [.macdGold])
      else if pdea ≤ pdif ∧ dif < dea then (-6, [.macdDead])
      else (0, [])
    let hist : ℤ × List TechSignal :=
      match lastO fr.MACD, prevO fr.MACD with
      | some m, some pm =>
        if 0 < m ∧ pm < m then (1, [.macdHistUp])
        else if m < 0 ∧ m < pm then (-1, [.macdHistDown])
        else (0, [])
      | _, _ => (0, [])
    (cross.1 + hist.1, cross.2 ++ hist.2)
  | _, _, _, _ => (0, [])

/-- RSI rule of `score_technical` (±5 zones). -/
def rsiRule (fr : IndFrame) : ℤ × List TechSignal :=
  match lastO fr.RSI with
  | some rsi =>
    if rsi < 30 then (5, [.rsiOversold])
    else if rsi < 40 then (2, [.rsiLow])
    else if 70 < rsi then (-5, [.rsiOverbought])
    else if 60 < rsi then (-2, [.rsiHigh])
    else (0, [])
  | none => (0, [])

/-- KDJ rule of `score_technical` (±3 extreme J, ±2 crossover). -/
def kdjRule (fr : IndFrame) : ℤ × List TechSignal :=
  match lastO fr.K, lastO fr.D, lastO fr.J with
  | some k, some d, some j =>
    let extreme : ℤ × List TechSignal :=
      if j < 20 then (3, [.kdjOversold])
      else if 80 < j then (-3, [.kdjOverbought])
      else (0, [])
    let cross : ℤ × List TechSignal :=
      match prevO fr.K, prevO fr.D with
      | some pk, some pdv =>
        if pk ≤ pdv ∧ d < k then (2, [.kdjGold])
        else if pdv ≤ pk ∧ k < d then (-2, [.kdjDead])
        else (0, [])
      | _, _ => (0, [])
    (extreme.1 + cross.1, extreme.2 ++ cross.2)
  | _, _, _ => (0, [])

/-- Bollinger rule of `score_technical` (±3).  The source compares the
close against `mid ± 2σ`; with `v` the rolling sample variance this is
encoded exactly: for `σ = √v ≥ 0`, `close ≤ mid - 2σ` iff
`0 ≤ mid - close ∧ 4v ≤ (mid - close)²`, and symmetrically for the
upper band. -/
def bollRule (fr : IndFrame) (latest : PriceBar) : ℤ × List TechSignal :=
  match lastO fr.BOLL_MID, lastO fr.BOLL_VAR with
  | some mid, some v =>
    if 0 ≤ mid - latest.close ∧ 4 * v ≤ (mid - latest.close) ^ 2 then
      (3, [.bollLower])
    else if 0 ≤ latest.close - mid ∧ 4 * v ≤ (latest.close - mid) ^ 2 then
      (-3, [.bollUpper])
    else (0, [])
  | _, _ => (0, [])

/-- Volume-ratio rule of `score_technical` (±3, requires ratio > 2). -/
def volRule (fr : IndFrame) (latest prev : PriceBar) : ℤ × List TechSignal :=
  match lastO fr.VOL_RAT with
  | some vr =>
    if 2 < vr ∧ prev.close < latest.close then (3, [.volUpSurge])
    else if 2 < vr ∧ latest.close < prev.close then (-3, [.volDownSurge])
    else (0, [])
  | none => (0, [])

/-- DMI/ADX rule of `score_technical` (±3, requires ADX > 25). -/
def adxRule (fr : IndFrame) : ℤ × List TechSignal :=
  match lastO fr.ADX, lastO fr.PLUS_DI, lastO fr.MINUS_DI with
  | some adx, some pdi, some mdi =>
    if 25 < adx ∧ mdi < pdi then (3, [.adxStrongUp])
    else if 25 < adx ∧ pdi < mdi then (-3, [.adxStrongDown])
    else (0, [])
  | _, _, _ => (0, [])

/-- Williams %R rule of `score_technical` (±2). -/
def wrRule (fr : IndFrame) : ℤ × List TechSignal :=
  match lastO fr.WR with
  | some wr =>
    if wr < -80 then (2, [.wrOversold])
    else if -20 < wr then (-2, [.wrOverbought])
    else (0, [])
  | none => (0, [])

/-- CCI rule of `score_technical` (±2). -/
def cciRule (fr : IndFrame) : ℤ × List TechSignal :=
  match lastO fr.CCI with
  | some cci =>
    if cci < -100 then (2, [.cciOversold])
    else if 100 < cci then (-2, [.cciOverbought])
    else (0, [])
  | none => (0, [])

/-- OBV rule of `score_technical` (±1). -/
def obvRule (fr : IndFrame) (latest prev : PriceBar) : ℤ × List TechSignal :=
  match lastO fr.OBV, lastO fr.OBV_MA5 with
  | some obv, some ma =>
    if ma < obv ∧ prev.close < latest.close then (1, [.obvRise])
    else if obv < ma ∧ latest.close < prev.close then (-1, [.obvFall])
    else (0, [])
  | _, _ => (0, [])

/-- ATR low-volatility bonus of `score_technical` (+1). -/
def atrRule (fr : IndFrame) : ℤ × List TechSignal :=
  match lastO fr.ATR_PCT with
  | some ap => if ap < 2 then (1, [.lowVolBonus]) else (0, [])
  | none => (0, [])

/-- All eleven rule blocks of `score_technical` in source order; rule
contributions are summed and signals concatenated in firing order. -/
def techRules (fr : IndFrame) (latest prev : PriceBar) : ℤ × List TechSignal :=
  let r1 := maRule fr
  let r2 := macdRule fr
  let r3 := rsiRule fr
  let r4 := kdjRule fr
  let r5 := bollRule fr latest
  let r6 := volRule fr latest prev
  let r7 := adxRule fr
  let r8 := wrRule fr
  let r9 := cciRule fr
  let r10 := obvRule fr latest prev
  let r11 := atrRule fr
  (r1.1 + r2.1 + r3.1 + r4.1 + r5.1 + r6.1 + r7.1 + r8.1 + r9.1 + r10.1 + r11.1,
   r1.2 ++ r2.2 ++ r3.2 ++ r4.2 ++ r5.2 ++ r6.2 ++ r7.2 ++ r8.2 ++ r9.2
     ++ r10.2 ++ r11.2)

/-- `score_technical` (±40): rules summed, then clamped as a final step.
The `default` bar is never read: the guard guarantees at least 60 rows,
so the last and second-to-last bars exist. -/
def score_technical (fr : IndFrame) : ℤ × List TechSignal :=
  if fr.bars.length < MIN_ROWS then (0, [])
  else
    let latest := fr.bars.getLastD default
    let prev := fr.bars.dropLast.getLastD default
    let r := techRules fr latest prev
    (max (-40) (min 40 r.1), r.2)

/-- PE block of `score_valuation` (±10). -/
def peRule (latest : Row) : ℤ × List ValSignal :=
  match latest.peTTM with
  | some pe =>
    if 0 < pe then
      if pe ≤ 15 then (10, [.peLow])
      else if pe ≤ 25 then (5, [.peFair])
      else if pe ≤ 50 then (-3, [.peHigh])
      else (-10, [.peVeryHigh])
    else if pe < 0 then (-10, [.peNeg])
    else (0, [])
  | none => (0, [])

/-- PB block of `score_valuation` (±8). -/
def pbRule (latest : Row) : ℤ × List ValSignal :=
  match latest.pbMRQ with
  | some pb =>
    if 0 < pb then
      if pb ≤ 1 then (8, [.pbLow])
      else if pb ≤ 2 then (4, [.pbFair])
      else if pb ≤ 5 then (-2, [.pbHigh])
      else (-8, [.pbVeryHigh])
    else (0, [])
  | none => (0, [])

/-- PS block of `score_valuation` (±7); note the dead band `(5, 10]`. -/
def psRule (latest : Row) : ℤ × List ValSignal :=
  match latest.psTTM with
  | some ps =>
    if 0 < ps then
      if ps ≤ 2 then (7, [.psLow])
      else if ps ≤ 5 then (3, [.psFair])
      else if 10 < ps then (-7, [.psHigh])
      else (0, [])
    else (0, [])
  | none => (0, [])

/-- Rule blocks of `score_valuation` summed before the final clamp. -/
def valRules (latest : Row) : ℤ × List ValSignal :=
  let r1 := peRule latest
  let r2 := pbRule latest
  let r3 := psRule latest
  (r1.1 + r2.1 + r3.1, r1.2 ++ r2.2 ++ r3.2)

/-- `score_valuation` (±25). -/
def score_valuation (latest : Row) : ℤ × List ValSignal :=
  let r := valRules latest
  (max (-25) (min 25 r.1), r.2)

/-- The row `iloc[0]` of the `data_type`-filtered fundamentals after the
descending sort on `statDate`: a row carrying the maximal statement
date (the model determinizes ties to the leftmost such row; the source
sort is unstable on ties). -/
def finLatest (t : FinType) (rows : List FinRow) : Option FinRow :=
  (rows.filter (fun r => r.dataType = t)).foldl
    (fun best r =>
      match best with
      | none => some r
      | some b => if b.statDate < r.statDate then some r else some b)
    none

/-- ROE block of `score_fundamental` (±8); the `0 ≤ roe < 10` tier adds
zero and no signal. -/
def roeRule (profit : Option FinRow) : ℤ × List FundSignal :=
  match profit with
  | some p =>
    match p.roeAvg with
    | some roe =>
      if 15 ≤ roe then (8, [.roeTop])
      else if 10 ≤ roe then (4, [.roeGood])
      else if 0 ≤ roe then (0, [])
      else (-8, [.roeNeg])
    | none => (0, [])
  | none => (0, [])

/-- Revenue-growth block of `score_fundamental` (±7). -/
def revRule (growth : Option FinRow) : ℤ × List FundSignal :=
  match growth with
  | some g =>
    match g.YOYEquity with
    | some rg =>
      if 30 ≤ rg then (7, [.revTop])
      else if 10 ≤ rg then (3, [.revGood])
      else if rg < -10 then (-7, [.revNeg])
      else (0, [])
    | none => (0, [])
  | none => (0, [])

/-- Net-profit-growth block of `score_fundamental` (±5). -/
def niRule (growth : Option FinRow) : ℤ × List FundSignal :=
  match growth with
  | some g =>
    match g.YOYNI with
    | some ng =>
      if 30 ≤ ng then (5, [.niTop])
      else if 10 ≤ ng then (2, [.niGood])
      else if ng < -20 then (-5, [.niNeg])
      else (0, [])
    | none => (0, [])
  | none => (0, [])

/-- Gross-margin block of `score_fundamental` (±5). -/
def gpRule (profit : Option FinRow) : ℤ × List FundSignal :=
  match profit with
  | some p =>
    match p.gpMargin with
    | some gpm =>
      if 50 ≤ gpm then (5, [.gpTop])
      else if 30 ≤ gpm then (2, [.gpGood])
      else if gpm < 10 then (-5, [.gpNeg])
      else (0, [])
    | none => (0, [])
  | none => (0, [])

/-- Rule blocks of `score_fundamental` summed before the final clamp. -/
def fundRules (rows : List FinRow) : ℤ × List FundSignal :=
  let profit := finLatest .profit rows
  let growth := finLatest .growth rows
  let r1 := roeRule profit
  let r2 := revRule growth
  let r3 := niRule growth
  let r4 := gpRule profit
  (r1.1 + r2.1 + r3.1 + r4.1, r1.2 ++ r2.2 ++ r3.2 ++ r4.2)

/-- `score_fundamental` (±25): zero result when the fundamentals file is
absent or empty, otherwise summed tiers clamped as a final step. -/
def score_fundamental (fin : Option (List FinRow)) : ℤ × List FundSignal :=
  match fin with
  | none => (0, [])
  | some rows =>
    if rows.isEmpty then (0, [])
    else
      let r := fundRules rows
      (max (-25) (min 25 r.1), r.2)

/-- `score_risk` (0–10): base 10, four independent subtractive checks,
clamped to `[0, 10]` as a final step. -/
def score_risk (latest : Row) : ℤ × List RiskSignal :=
  let s0 : ℤ × List RiskSignal := (10, [])
  let s1 := if latest.isST = 1 then (s0.1 - 10, s0.2 ++ [.riskST]) else s0
  let s2 := if latest.tradestatus = 0 then (s1.1 - 5, s1.2 ++ [.riskHalt]) else s1
  let s3 := if optGtB latest.ATR_PCT 5 then (s2.1 - 3, s2.2 ++ [.riskHighVol]) else s2
  let s4 := if optLtB latest.VOL_RAT 0.3 then (s3.1 - 2, s3.2 ++ [.riskIlliquid]) else s3
  (max 0 (min 10 s4.1), s4.2)

/-- 5-day return block of `score_momentum` (±5).  `rev` is the reversed
close column; `closes[-1]/closes[-6]` is total `ℚ` division (the zero
denominator needs a zero close, impossible for quoted prices). -/
def mom5Rule (rev : List ℚ) (n : ℕ) : ℤ × List MomSignal :=
  if 6 ≤ n then
    let ret5 := (rev.getD 0 0 / rev.getD 5 0 - 1) * 100
    if ret5 < -15 then (5, [.mom5Deep])
    else if ret5 < -5 then (2, [.mom5Pull])
    else if 5 ≤ ret5 ∧ ret5 ≤ 15 then (3, [.mom5Up])
    else if 15 < ret5 then (-5, [.mom5Surge])
    else (0, [])
  else (0, [])

/-- 20-day return block of `score_momentum` (±3). -/
def mom20Rule (rev : List ℚ) (n : ℕ) : ℤ × List MomSignal :=
  if 21 ≤ n then
    let ret20 := (rev.getD 0 0 / rev.getD 20 0 - 1) * 100
    if ret20 < -20 then (3, [.mom20Deep])
    else if 30 < ret20 then (-3, [.mom20Surge])
    else (0, [])
  else (0, [])

/-- Consecutive-decline block of `score_momentum` (0..+3), scanning the
`pctChg` column backward until a non-negative (or NaN) day.  The
`np.diff` fallback of the source for a missing `pctChg` column is not
modelled: the column always exists in the `load_daily_data` schema,
NaN-able per cell. -/
def momConsecRule (bars : List PriceBar) : ℤ × List MomSignal :=
  let consec := (bars.reverse.takeWhile (fun b => optLtB b.pctChg 0)).length
  if 5 ≤ consec then (3, [.momConsec3])
  else if 3 ≤ consec then (1, [.momConsec1])
  else (0, [])

/-- 20-day range-position block of `score_momentum` (±2). -/
def momRangeRule (rev : List ℚ) : ℤ × List MomSignal :=
  let recent20 := rev.take 20
  let low20 := listMin recent20
  let high20 := listMax recent20
  let cur := rev.getD 0 0
  if low20 < high20 then
    let pos := (cur - low20) / (high20 - low20)
    if pos < 0.1 then (2, [.momNearLow])
    else if 0.9 < pos then (-2, [.momNearHigh])
    else (0, [])
  else (0, [])

/-- Rule blocks of `score_momentum` summed before the final clamp. -/
def momRules (bars : List PriceBar) : ℤ × List MomSignal :=
  let rev := (bars.map (fun b => b.close)).reverse
  let r1 := mom5Rule rev bars.length
  let r2 := mom20Rule rev bars.length
  let r3 := momConsecRule bars
  let r4 := momRangeRule rev
  (r1.1 + r2.1 + r3.1 + r4.1, r1.2 ++ r2.2 ++ r3.2 ++ r4.2)

/-- `score_momentum` (±15): requires at least 20 rows. -/
def score_momentum (bars : List PriceBar) : ℤ × List MomSignal :=
  if bars.length < 20 then (0, [])
  else
    let r := momRules bars
    (max (-15) (min 15 r.1), r.2)

/-- Cumulative main-capital tier block of `score_flow` Path A (±6/±3),
in units of 10 000 currency units. -/
def flowTotalRule (flow : List FlowRec) : ℤ × List FlowSignal :=
  let total_main_wan := (flow.map (fun r => r.main_net)).sum / 10000
  if 5000 < total_main_wan then (6, [.flowTotalIn6])
  else if 1000 < total_main_wan then (3, [.flowTotalIn3])
  else if total_main_wan < -5000 then (-6, [.flowTotalOut6])
  else if total_main_wan < -1000 then (-3, [.flowTotalOut3])
  else (0, [])

/-- Consecutive inflow/outflow streak blocks of `score_flow` Path A
(+4/+2 and −4), counted backward from the most recent record. -/
def flowConsecRule (flow : List FlowRec) : ℤ × List FlowSignal :=
  let consec_in := (flow.reverse.takeWhile (fun r => decide (0 < r.main_net))).length
  let ci : ℤ × List FlowSignal :=
    if 3 ≤ consec_in then (4, [.flowConsecIn4])
    else if 2 ≤ consec_in then (2, [.flowConsecIn2])
    else (0, [])
  let consec_out := (flow.reverse.takeWhile (fun r => decide (r.main_net < 0))).length
  let co : ℤ × List FlowSignal :=
    if 3 ≤ consec_out then (-4, [.flowConsecOut4]) else (0, [])
  (ci.1 + co.1, ci.2 ++ co.2)

/-- Latest-day inflow-share tier block of `score_flow` Path A (±5/±3).
Path A runs only with at least three records, so the `default` record is
never read. -/
def flowPctRule (flow : List FlowRec) : ℤ × List FlowSignal :=
  let latest_pct := (flow.getLastD default).main_pct
  if 15 < latest_pct then (5, [.flowPctPos5])
  else if 5 < latest_pct then (3, [.flowPctPos3])
  else if latest_pct < -15 then (-5, [.flowPctNeg5])
  else if latest_pct < -5 then (-3, [.flowPctNeg3])
  else (0, [])

/-- Informational 3/5/10-day in/out/net summary lines of Path A, emitted
only when enough records exist (they carry no points). -/
def flowSummaries (flow : List FlowRec) : List FlowSignal :=
  [3, 5, 10].filterMap (fun p =>
    if p ≤ flow.length then some (.flowSummary p) else none)

/-- Path A of `score_flow` (real flow records): tiers summed, clamped to
±15 as a final step. -/
def scoreFlowReal (flow : List FlowRec) : ℤ × List FlowSignal :=
  let r1 := flowTotalRule flow
  let r2 := flowConsecRule flow
  let r3 := flowPctRule flow
  let raw := (r1.1 + r2.1 + r3.1, r1.2 ++ r2.2 ++ r3.2 ++ flowSummaries flow)
  (max (-15) (min 15 raw.1), raw.2)

/-- Volume-up-day block of Path B (+5/+3). -/
def flowVolUpDays (recent5 : List PriceBar) (vol_ma20 : ℚ) : ℕ :=
  (recent5.filter (fun b =>
    decide (vol_ma20 * 1.5 < b.volume) && optGtB b.pctChg 0)).length

/-- Quiet-stabilization block of Path B (+3).  `pcts[-1]` is the newest
of the last three days and `pcts[0]` the oldest; a NaN comparison is
`false` as everywhere. -/
def flowStabRule (bars : List PriceBar) (vol_ma20 : ℚ) : ℤ × List FlowSignal :=
  let last3 := bars.reverse.take 3
  if last3.length = 3 then
    let pLast := (last3.getD 0 default).pctChg
    let pFirst := (last3.getD 2 default).pctChg
    let prev5_pct :=
      if 8 ≤ bars.length then
        meanSkipNA (((bars.reverse.take 8).drop 3).map (fun b => b.pctChg))
      else some 0
    let vol_shrink := last3.all (fun b => decide (b.volume < vol_ma20 * 0.8))
    let pct_stabilize :=
      optAbsLtB pLast 2 && (optGtOptB pLast pFirst || optGtB pLast 0)
    if optLtB prev5_pct (-1) && vol_shrink && pct_stabilize then
      (3, [.flowStabilize])
    else (0, [])
  else (0, [])

/-- Turnover-acceleration block of Path B (+4/+2): 5-day mean turnover
against the mean over the 15 days before those 5. -/
def flowTurnRule (bars : List PriceBar) : ℤ × List FlowSignal :=
  let turn5 := meanSkipNA ((bars.reverse.take 5).map (fun b => b.turn))
  let prev15 := meanSkipNA (((bars.reverse.take 20).drop 5).map (fun b => b.turn))
  if optGtB prev15 0 then
    let turn_ratio := odiv turn5 prev15
    if optGtB turn_ratio 2 then (4, [.flowTurnAccel])
    else if optGtB turn_ratio 1.5 then (2, [.flowTurnWarm])
    else (0, [])
  else (0, [])

/-- Blow-off-top penalty of Path B (−5). -/
def flowBlowRule (bars : List PriceBar) (vol_ma20 : ℚ) : ℤ × List FlowSignal :=
  let last := bars.getLastD default
  if decide (vol_ma20 * 3 < last.volume) && optGtB last.pctChg 5 then
    (-5, [.flowBlowOff])
  else (0, [])

/-- Persistent-quiet-decline penalty of Path B (−3), only when no
volume-up day occurred. -/
def flowQuietRule (recent5 : List PriceBar) (vol_up_days : ℕ) :
    ℤ × List FlowSignal :=
  if vol_up_days = 0 then
    let down_days := (recent5.filter (fun b => optLtB b.pctChg 0)).length
    if 4 ≤ down_days then (-3, [.flowQuietDecline]) else (0, [])
  else (0, [])

/-- Path B of `score_flow` (volume/price proxy): early zero return on a
nonpositive 20-day mean volume, otherwise blocks summed and clamped to
±15 as a final step. -/
def scoreFlowProxy (bars : List PriceBar) : ℤ × List FlowSignal :=
  let recent5 := bars.reverse.take 5
  let vol_ma20 := meanQ ((bars.reverse.take 20).map (fun b => b.volume))
  if vol_ma20 ≤ 0 then (0, [])
  else
    let vol_up_days := flowVolUpDays recent5 vol_ma20
    let r1 : ℤ × List FlowSignal :=
      if 3 ≤ vol_up_days then (5, [.flowVolUp5])
      else if 2 ≤ vol_up_days then (3, [.flowVolUp3])
      else (0, [])
    let r2 := flowStabRule bars vol_ma20
    let r3 := flowTurnRule bars
    let r4 := flowBlowRule bars vol_ma20
    let r5 := flowQuietRule recent5 vol_up_days
    let raw := (r1.1 + r2.1 + r3.1 + r4.1 + r5.1,
                r1.2 ++ r2.2 ++ r3.2 ++ r4.2 ++ r5.2)
    (max (-15) (min 15 raw.1), raw.2)

/-- `score_flow` (±15): 20-row gate first, then the Path A/Path B
dispatch on `flow_data and len(flow_data) >= 3` (truthiness of the list
is subsumed by the length test). -/
def score_flow (bars : List PriceBar) (flow_data : Option (List FlowRec)) :
    ℤ × List FlowSignal :=
  if bars.length < 20 then (0, [])
  else
    match flow_data with
    | some l => if 3 ≤ l.length then scoreFlowReal l else scoreFlowProxy bars
    | none => scoreFlowProxy bars

/-- `NEWS_MAJOR_POS` lexicon. -/
def NEWS_MAJOR_POS : List String :=
  ["中标", "大合同", "战略合作协议", "股权激励", "回购",
   "增持", "高送转", "并购", "重组", "业绩超预期",
   "首次盈利", "扭亏", "获批", "上市许可", "垄断企业",
   "获得专利", "技术突破", "战略投资", "入股"]

/-- `NEWS_MINOR_POS` lexicon. -/
def NEWS_MINOR_POS : List String :=
  ["合作", "签约", "中选", "新客户", "扩产", "新订单",
   "业绩增长", "净利润增长", "营收增长", "新产品",
   "降本增效", "份额提升", "加大投入",
   "龙虎榜", "涨停", "大幅上涨", "主力资金流入", "获机构重点关注",
   "创近期新高"]

/-- `NEWS_MAJOR_NEG` lexicon. -/
def NEWS_MAJOR_NEG : List String :=
  ["亏损预告", "业绩大幅下滑", "行政处罚", "被调查", "立案",
   "违规", "诉讼", "仲裁", "财务造假", "强制退市",
   "债务违约", "股权冻结", "大规模裁员", "停产",
   "退市风险", "被ST", "欺诈发行"]

/-- `NEWS_MINOR_NEG` lexicon. -/
def NEWS_MINOR_NEG : List String :=
  ["减持", "解禁", "下调评级", "业绩下滑", "竞争加剧",
   "产能过剩", "客户流失", "亏损", "计提减值", "商誉减值"]

/-- Python `kw in title` substring test. -/
def strContains (s kw : String) : Bool :=
  s.data.tails.any (fun t => kw.data.isPrefixOf t)

/-- First-match-wins lexicon scan of one title (`for kw in LEX: ...
break` fires at most once per lexicon). -/
def firstHit (lex : List String) (title : String) : Bool :=
  lex.any (fun kw => strContains title kw)

/-- Python `int()` truncation toward zero on a rational. -/
def pyInt (q : ℚ) : ℤ := if 0 ≤ q then ⌊q⌋ else ⌈q⌉

/-- Keyword contribution of one news item: weighted score delta, the
signal lines appended for major hits, and how many matched-title lines
it adds. -/
def newsItemHits (it : NewsItem) : ℚ × List NewsSignal × ℕ :=
  let mp := firstHit NEWS_MAJOR_POS it.title
  let mn := firstHit NEWS_MAJOR_NEG it.title
  let ip := firstHit NEWS_MINOR_POS it.title
  let im := firstHit NEWS_MINOR_NEG it.title
  ((if mp then 8 * it.weight else 0) - (if mn then 8 * it.weight else 0)
     + (if ip then 3 * it.weight else 0) - (if im then 3 * it.weight else 0),
   (if mp then [NewsSignal.newsMajorPosHit] else [])
     ++ (if mn then [NewsSignal.newsMajorNegHit] else []),
   (if mp then 1 else 0) + (if mn then 1 else 0) + (if ip then 1 else 0)
     + (if im then 1 else 0))

/-- Keyword fallback path of `score_news`: per-item weighted lexicon
hits summed, clamped to ±15 and truncated to an integer, followed by the
summary line and at most three matched-title lines. -/
def scoreNewsKeyword (news_items : List NewsItem) : ℤ × List NewsSignal :=
  let hits := news_items.map newsItemHits
  let raw : ℚ := (hits.map (fun h => h.1)).sum
  let hitSigs := (hits.map (fun h => h.2.1)).flatten
  let matched : ℕ := (hits.map (fun h => h.2.2)).sum
  let final := pyInt (max (-15) (min 15 raw))
  let summary : NewsSignal :=
    if 0 < final then .newsDictPos
    else if final < 0 then .newsDictNeg
    else .newsDictNeu
  (final, hitSigs ++ [summary] ++ List.replicate (min 3 matched) .newsMatchedLine)

/-- `analyze_news_with_gemini`, reduced to its deterministic shell: the
provider's parsed `SCORE` value (or `none` when the key is missing, the
call failed, or there are no items) is clamped to ±15. -/
def analyze_news_with_gemini (resp : Option ℤ) : Option ℤ :=
  resp.map (fun r => max (-15) (min 15 r))

/-- `score_news` (±15): zero on an empty item list; the provider path
when a response is available, otherwise the keyword fallback. -/
def score_news (news_items : List NewsItem) (gemini : Option ℤ) :
    ℤ × List NewsSignal :=
  if news_items.isEmpty then (0, [])
  else
    match analyze_news_with_gemini gemini with
    | some g =>
      let summary : NewsSignal :=
        if 0 < g then .newsGeminiPos
        else if g < 0 then .newsGeminiNeg
        else .newsGeminiNeu
      (g, summary :: List.replicate (min 3 news_items.length) .newsTitleLine)
    | none => scoreNewsKeyword news_items

/-!
## Composite evaluator and sector-heat pass
-/

/-- Recommendation chain of `evaluate_single` (boundaries 65/30/−45/−15,
tested in source order). -/
def classifyInitial (total : ℤ) : Action :=
  if 65 ≤ total then .strongBuy
  else if 30 ≤ total then .buy
  else if total ≤ -45 then .strongSell
  else if total ≤ -15 then .sell
  else .watch

/-- Recommendation chain of `_apply_sector_heat` (boundaries
60/30/−40/−15, tested in source order). -/
def classifyHeat (total : ℤ) : Action :=
  if 60 ≤ total then .strongBuy
  else if 30 ≤ total then .buy
  else if total ≤ -40 then .strongSell
  else if total ≤ -15 then .sell
  else .watch

/-- The result dict built by `evaluate_single` (presentation-only string
fields elided; the `code` identifies the instrument for the boards
lookup of the heat pass). -/
structure EvalResult where
  code : ℕ
  date : ℕ
  close : ℚ
  pctChg : Option ℚ
  total_score : ℤ
  tech_score : ℤ
  val_score : ℤ
  fund_score : ℤ
  risk_score : ℤ
  mom_score : ℤ
  flow_score : ℤ
  news_score : ℤ
  heat_score : ℤ
  action : Action
  tech_signals : List TechSignal
  val_signals : List ValSignal
  fund_signals : List FundSignal
  risk_signals : List RiskSignal
  mom_signals : List MomSignal
  flow_signals : List FlowSignal
  news_signals : List NewsSignal
  heat_signals : List HeatSignal
  deriving DecidableEq, Repr

/-- `evaluate_single`: not-evaluable (`none`) when the history is absent
or shorter than `MIN_ROWS`; otherwise all seven per-instrument scorers
run, the total is the unclamped sum, the heat dimension starts at zero
and the tier comes from the 65/30/−45/−15 chain.  The fundamentals rows,
flow records, news items and provider response are the materialized
collaborator inputs of the source (`load_finance_data`,
`fetch_capital_flow`, `fetch_news`, Gemini). -/
def evaluate_single (code : ℕ) (df : Option (List PriceBar))
    (fin : Option (List FinRow)) (flow_data : Option (List FlowRec))
    (news_data : Option (List NewsItem)) (gemini : Option ℤ) :
    Option EvalResult :=
  match df with
  | none => none
  | some bars =>
    if bars.length < MIN_ROWS then none
    else
      let fr := calc_all_indicators bars
      let latest := bars.getLastD default
      let row := lastRow fr latest
      let tech := score_technical fr
      let val := score_valuation row
      let fund := score_fundamental fin
      let risk := score_risk row
      let mom := score_momentum bars
      let flow := score_flow bars flow_data
      let news := score_news (news_data.getD []) gemini
      let total := tech.1 + val.1 + fund.1 + risk.1 + mom.1 + flow.1 + news.1
      some
        { code := code
          date := latest.date
          close := latest.close
          pctChg := latest.pctChg
          total_score := total
          tech_score := tech.1
          val_score := val.1
          fund_score := fund.1
          risk_score := risk.1
          mom_score := mom.1
          flow_score := flow.1
          news_score := news.1
          heat_score := 0
          action := classifyInitial total
          tech_signals := tech.2
          val_signals := val.2
          fund_signals := fund.2
          risk_signals := risk.2
          mom_signals := mom.2
          flow_signals := flow.2
          news_signals := news.2
          heat_signals := [] }

/-- Concept-tag lookup: the `concept` lists of the `load_boards()` table,
passed explicitly. -/
abbrev Boards := ℕ → List ℕ

/-- The `pctChg` samples contributing to one concept: every result in
batch order whose boards carry the concept and whose `pctChg` is not
NaN. -/
def conceptPcts (bd : Boards) (rs : List EvalResult) (c : ℕ) : List ℚ :=
  rs.filterMap (fun r =>
    match r.pctChg with
    | some p => if c ∈ bd r.code then some p else none
    | none => none)

/-- `concept_heat.get(c, 0)`: the mean percent change of a concept with
at least three contributing instruments, else the dict-default 0. -/
def conceptHeat (bd : Boards) (rs : List EvalResult) (c : ℕ) : ℚ :=
  let ps := conceptPcts bd rs c
  if 3 ≤ ps.length then meanQ ps else 0

/-- Per-instrument step of `_apply_sector_heat`: untagged instruments
are skipped (`continue`), tagged ones get the tier + hot-count score
clamped to ±10, the total incremented and the tier reclassified with the
60/30/−40/−15 chain. -/
def adjustOne (heat : ℕ → ℚ) (bd : Boards) (r : EvalResult) : EvalResult :=
  let concepts := bd r.code
  if concepts.isEmpty then r
  else
    let heats := concepts.map heat
    let max_heat := listMax heats
    let hot_count := (heats.filter (fun h => decide (1 < h))).length
    let base : ℤ × List HeatSignal :=
      if 3 < max_heat then (6, [.heatHot])
      else if 1 < max_heat then (3, [.heatActive])
      else if 0.5 < max_heat then (1, [.heatWarm])
      else if max_heat < -3 then (-6, [.heatDim])
      else if max_heat < -1 then (-3, [.heatCool])
      else (0, [])
    let bonus : ℤ × List HeatSignal :=
      if 3 ≤ hot_count then (base.1 + 4, base.2 ++ [.heatMulti4])
      else if 2 ≤ hot_count then (base.1 + 2, base.2 ++ [.heatMulti2])
      else base
    let heat_score := max (-10) (min 10 bonus.1)
    let total := r.total_score + heat_score
    { r with
      heat_score := heat_score
      heat_signals := bonus.2
      total_score := total
      action := classifyHeat total }

/-- `_apply_sector_heat`: the concept means are computed from the whole
batch first, then every result is adjusted.  The in-place mutation of
the source is the pointwise map: each update depends only on the
precomputed means and the instrument itself. -/
def apply_sector_heat (bd : Boards) (rs : List EvalResult) : List EvalResult :=
  rs.map (adjustOne (conceptHeat bd rs) bd)

/-!
## Concrete fixtures used by the closed theorems
-/

/-- One bar of a flat history: constant OHLC 10, constant volume 100. -/
def flatBar : PriceBar where
  date := 0
  openP := 10
  high := 10
  low := 10
  close := 10
  preclose := 10
  volume := 100
  amount := some 1000
  turn := some 1
  pctChg := some 0
  peTTM := none
  pbMRQ := none
  psTTM := none
  isST := 0
  tradestatus := 1

/-- A flat 60-day history. -/
def flatHist : List PriceBar := List.replicate 60 flatBar

/-- The flat history too short to evaluate. -/
def shortHist : List PriceBar := List.replicate 5 flatBar

/-- The scored frame of the flat history. -/
def flatFrame : IndFrame := calc_all_indicators flatHist

/-- One constant capital-flow record. -/
def frec : FlowRec where
  date := 0
  main_net := 1
  main_pct := 1
  super_net := 1
  big_net := 1

/-- A bare evaluation result with the given code, percent change and
total (all dimension scores zero, watch tier, no signals). -/
def exResult (c : ℕ) (pct : ℚ) (total : ℤ) : EvalResult where
  code := c
  date := 0
  close := 10
  pctChg := some pct
  total_score := total
  tech_score := 0
  val_score := 0
  fund_score := 0
  risk_score := 0
  mom_score := 0
  flow_score := 0
  news_score := 0
  heat_score := 0
  action := .watch
  tech_signals := []
  val_signals := []
  fund_signals := []
  risk_signals := []
  mom_signals := []
  flow_signals := []
  news_signals := []
  heat_signals := []

/-- Demo boards: codes 0, 1, 2 carry concept 7; everything else is
untagged. -/
def demoBoards : Boards := fun c => if c ≤ 2 then [7] else []

/-- Demo batch: three instruments of concept 7, each up 5 percent, and
one untagged instrument. -/
def demoBatch : List EvalResult :=
  [exResult 0 5 20, exResult 1 5 0, exResult 2 5 0, exResult 3 5 0]

/-- The first demo instrument after one heat pass. -/
def demoAdjusted0 : EvalResult :=
  adjustOne (conceptHeat demoBoards demoBatch) demoBoards (exResult 0 5 20)

/-- Deductions of `score_risk` whose conditions hold on the latest row. -/
def riskDeductions (latest : Row) : ℤ :=
  (if latest.isST = 1 then 10 else 0)
    + (if latest.tradestatus = 0 then 5 else 0)
    + (if optGtB latest.ATR_PCT 5 then 3 else 0)
    + (if optLtB latest.VOL_RAT 0.3 then 2 else 0)

/-!
## Verified properties
-/

/-- Clamping into `[lo, hi]` lands in `[lo, hi]`. -/
theorem clampRange {α : Type} [LinearOrder α] (lo hi x : α) (h : lo ≤ hi) :
    lo ≤ max lo (min hi x) ∧ max lo (min hi x) ≤ hi :=
  ⟨le_max_left _ _, max_le h (min_le_left _ _)⟩

/-- Integer truncation keeps a rational clamped to ±15 inside ±15. -/
theorem pyInt_bounds {q : ℚ} (h1 : -15 ≤ q) (h2 : q ≤ 15) :
    -15 ≤ pyInt q ∧ pyInt q ≤ 15 := by
  unfold pyInt
  split
  · constructor
    · have h0 : (0 : ℤ) ≤ ⌊q⌋ := Int.floor_nonneg.2 (by assumption)
      omega
    · have : (⌊q⌋ : ℚ) ≤ 15 := le_trans (Int.floor_le q) h2
      exact_mod_cast this
  · constructor
    · have : (-15 : ℚ) ≤ (⌈q⌉ : ℚ) := le_trans h1 (Int.le_ceil q)
      exact_mod_cast this
    · have h0 : ⌈q⌉ ≤ (0 : ℤ) := by
        rw [Int.ceil_le]
        push_cast
        linarith [not_le.1 (by assumption : ¬ 0 ≤ q)]
      omega

/-- Bounds for `score_news` through both paths. -/
theorem score_news_bounds (items : List NewsItem) (gem : Option ℤ) :
    -15 ≤ (score_news items gem).1 ∧ (score_news items gem).1 ≤ 15 := by
  unfold score_news
  split
  · exact ⟨by norm_num, by norm_num⟩
  · unfold analyze_news_with_gemini
    cases gem with
    | none =>
      simp only [Option.map_none]
      unfold scoreNewsKeyword
      exact pyInt_bounds (clampRange (-15) 15 _ (by norm_num)).1
        (clampRange (-15 : ℚ) 15 _ (by norm_num)).2
    | some g =>
      simp only [Option.map_some]
      exact clampRange (-15) 15 g (by norm_num)

/-- Bounds for `score_flow` through the gate and both paths. -/
theorem score_flow_bounds (bars : List PriceBar) (fl : Option (List FlowRec)) :
    -15 ≤ (score_flow bars fl).1 ∧ (score_flow bars fl).1 ≤ 15 := by
  have hreal : ∀ l, -15 ≤ (scoreFlowReal l).1 ∧ (scoreFlowReal l).1 ≤ 15 := by
    intro l
    unfold scoreFlowReal
    exact clampRange (-15) 15 _ (by norm_num)
  have hproxy : -15 ≤ (scoreFlowProxy bars).1 ∧ (scoreFlowProxy bars).1 ≤ 15 := by
    dsimp only [scoreFlowProxy]
    split
    · exact ⟨by norm_num, by norm_num⟩
    · exact clampRange (-15) 15 _ (by norm_num)
  unfold score_flow
  split
  · exact ⟨by norm_num, by norm_num⟩
  · cases fl with
    | none => exact hproxy
    | some l =>
      simp only
      split
      · exact hreal l
      · exact hproxy

/-- Bounds for the heat score assigned by one `_apply_sector_heat` step:
untouched instruments keep their incoming score, tagged ones get the
clamped value. -/
theorem adjustOne_heat_bounds (heat : ℕ → ℚ) (bd : Boards) (r : EvalResult)
    (h : -10 ≤ r.heat_score ∧ r.heat_score ≤ 10) :
    -10 ≤ (adjustOne heat bd r).heat_score ∧
      (adjustOne heat bd r).heat_score ≤ 10 := by
  dsimp only [adjustOne]
  split
  · exact h
  · exact clampRange (-10) 10 _ (by norm_num)

/-- C1.  Every dimension scorer stays inside its documented closed
interval — technical ±40, valuation ±25, fundamental ±25, risk [0,10],
momentum ±15, capital-flow ±15, news ±15 — and the sector-heat pass
leaves every instrument of a batch with a heat score inside ±10
(provided the incoming scores were, which holds for `evaluate_single`
output where they are 0).  Rule contributions are summed first and
clamped only as a final step: the last three conjuncts exhibit the
final-clamp structure for valuation, capital-flow Path A, and
technical. -/
theorem dimension_score_bounds :
    (∀ fr : IndFrame, -40 ≤ (score_technical fr).1 ∧ (score_technical fr).1 ≤ 40) ∧
    (∀ row : Row, -25 ≤ (score_valuation row).1 ∧ (score_valuation row).1 ≤ 25) ∧
    (∀ fin, -25 ≤ (score_fundamental fin).1 ∧ (score_fundamental fin).1 ≤ 25) ∧
    (∀ row : Row, 0 ≤ (score_risk row).1 ∧ (score_risk row).1 ≤ 10) ∧
    (∀ bars, -15 ≤ (score_momentum bars).1 ∧ (score_momentum bars).1 ≤ 15) ∧
    (∀ bars fl, -15 ≤ (score_flow bars fl).1 ∧ (score_flow bars fl).1 ≤ 15) ∧
    (∀ items gem, -15 ≤ (score_news items gem).1 ∧ (score_news items gem).1 ≤ 15) ∧
    (∀ bd rs, (∀ r ∈ rs, -10 ≤ r.heat_score ∧ r.heat_score ≤ 10) →
      ∀ r' ∈ apply_sector_heat bd rs,
        -10 ≤ r'.heat_score ∧ r'.heat_score ≤ 10) ∧
    (∀ row : Row, score_valuation row
      = (max (-25) (min 25 (valRules row).1), (valRules row).2)) ∧
    (∀ l, scoreFlowReal l
      = (max (-15) (min 15 ((flowTotalRule l).1 + (flowConsecRule l).1 + (flowPctRule l).1)),
         (flowTotalRule l).2 ++ (flowConsecRule l).2 ++ (flowPctRule l).2
           ++ flowSummaries l)) ∧
    (∀ fr : IndFrame, MIN_ROWS ≤ fr.bars.length →
      (score_technical fr).1
        = max (-40) (min 40 (techRules fr (fr.bars.getLastD default)
            (fr.bars.dropLast.getLastD default)).1)) := by
  refine ⟨?_, ?_, ?_, ?_, ?_, ?_, ?_, ?_, ?_, ?_, ?_⟩
  · intro fr
    unfold score_technical
    split
    · exact ⟨by norm_num, by norm_num⟩
    · exact clampRange (-40) 40 _ (by norm_num)
  · intro row
    unfold score_valuation
    exact clampRange (-25) 25 _ (by norm_num)
  · intro fin
    unfold score_fundamental
    cases fin with
    | none => exact ⟨by norm_num, by norm_num⟩
    | some rows =>
      simp only
      split
      · exact ⟨by norm_num, by norm_num⟩
      · exact clampRange (-25) 25 _ (by norm_num)
  · intro row
    unfold score_risk
    exact clampRange 0 10 _ (by norm_num)
  · intro bars
    unfold score_momentum
    split
    · exact ⟨by norm_num, by norm_num⟩
    · exact clampRange (-15) 15 _ (by norm_num)
  · exact score_flow_bounds
  · exact score_news_bounds
  · intro bd rs hin r' hr'
    simp only [apply_sector_heat, List.mem_map] at hr'
    obtain ⟨r, hr, rfl⟩ := hr'
    exact adjustOne_heat_bounds _ bd r (hin r hr)
  · intro row
    rfl
  · intro l
    rfl
  · intro fr h
    unfold score_technical
    rw [if_neg (by omega)]

/-- C2.  `evaluate_single` is not-evaluable exactly when the history is
absent or shorter than 60 rows; no choice of fundamentals, flow, news or
provider inputs affects evaluability, and the degradable dimensions fall
back to their zero/fallback results (fundamental zero when absent, news
zero when empty, flow to the proxy path when records are absent). -/
theorem evaluate_single_not_evaluable_iff :
    (∀ code df fin fl nw g,
      (evaluate_single code df fin fl nw g).isSome
        ↔ ∃ bars, df = some bars ∧ MIN_ROWS ≤ bars.length) ∧
    score_fundamental none = (0, []) ∧
    (∀ gem, score_news [] gem = (0, [])) ∧
    (∀ bars, score_flow bars none
      = if bars.length < 20 then (0, []) else scoreFlowProxy bars) := by
  refine ⟨?_, rfl, fun gem => rfl, fun bars => rfl⟩
  intro code df fin fl nw g
  cases df with
  | none => simp [evaluate_single]
  | some bars =>
    by_cases h : bars.length < MIN_ROWS
    · simp only [evaluate_single, if_pos h, Option.isSome_none]
      constructor
      · intro hfalse
        cases hfalse
      · rintro ⟨bars', hb, hlen⟩
        cases hb
        omega
    · simp only [evaluate_single, if_neg h, Option.isSome_some]
      exact ⟨fun _ => ⟨bars, rfl, by omega⟩, fun _ => trivial⟩

/-- C3.  The per-instrument tier uses boundaries 65/30/−45/−15 on the
unclamped total, the post-heat tier uses the distinct boundaries
60/30/−40/−15, the two tables disagree (e.g. at total 62), and the two
chains are wired exactly where the claim says: `evaluate_single` tiers
with the first, the heat pass re-tiers tagged instruments with the
second. -/
theorem recommendation_threshold_tables :
    (∀ t : ℤ, classifyInitial t =
      if 65 ≤ t then Action.strongBuy
      else if 30 ≤ t ∧ t < 65 then Action.buy
      else if -15 < t ∧ t < 30 then Action.watch
      else if -45 < t ∧ t ≤ -15 then Action.sell
      else Action.strongSell) ∧
    (∀ t : ℤ, classifyHeat t =
      if 60 ≤ t then Action.strongBuy
      else if 30 ≤ t ∧ t < 60 then Action.buy
      else if -15 < t ∧ t < 30 then Action.watch
      else if -40 < t ∧ t ≤ -15 then Action.sell
      else Action.strongSell) ∧
    classifyInitial 62 ≠ classifyHeat 62 ∧
    (∀ code df fin fl nw g r, evaluate_single code df fin fl nw g = some r →
      r.action = classifyInitial r.total_score) ∧
    (∀ bd rs r', r' ∈ apply_sector_heat bd rs → bd r'.code ≠ [] →
      r'.action = classifyHeat r'.total_score) := by
  have hcode : ∀ heat bd r, (adjustOne heat bd r).code = r.code := by
    intro heat bd r
    dsimp only [adjustOne]
    split
    · rfl
    · rfl
  refine ⟨?_, ?_, by decide, ?_, ?_⟩
  · intro t
    unfold classifyInitial
    split_ifs <;> first | rfl | omega
  · intro t
    unfold classifyHeat
    split_ifs <;> first | rfl | omega
  · intro code df fin fl nw g r h
    cases df with
    | none => exact absurd h (by simp [evaluate_single])
    | some bars =>
      dsimp only [evaluate_single] at h
      by_cases hl : bars.length < MIN_ROWS
      · rw [if_pos hl] at h
        cases h
      · rw [if_neg hl] at h
        cases Option.some.inj h
        rfl
  · intro bd rs r' hmem hne
    simp only [apply_sector_heat, List.mem_map] at hmem
    obtain ⟨r, hr, rfl⟩ := hmem
    rw [hcode] at hne
    dsimp only [adjustOne]
    split
    · next hc =>
      exact absurd (List.isEmpty_iff.mp hc) hne
    · rfl

unseal Rat.ofScientific Rat.mul Rat.inv Rat.add Rat.sub in
/-- C3 witness: the tagged first demo instrument is heat-adjusted and
its tier equals the 60/30/−40/−15 classification of its new total. -/
theorem recommendation_threshold_tables_witness :
    demoAdjusted0 ∈ apply_sector_heat demoBoards demoBatch ∧
    demoBoards demoAdjusted0.code ≠ [] ∧
    demoAdjusted0.action = classifyHeat demoAdjusted0.total_score :=
  ⟨by decide, by decide,
    recommendation_threshold_tables.2.2.2.2 demoBoards demoBatch
      demoAdjusted0 (by decide) (by decide)⟩

/-- C6.  The risk score is the base 10 minus the deductions whose
conditions hold (−10 special-treatment, −5 halted, −3 high ATR%, −2
illiquidity), clamped to `[0, 10]`; it never exceeds 10 nor drops below
0. -/
theorem risk_score_subtractive :
    ∀ latest : Row,
      (score_risk latest).1 = max 0 (min 10 (10 - riskDeductions latest)) ∧
      0 ≤ (score_risk latest).1 ∧ (score_risk latest).1 ≤ 10 := by
  intro latest
  have heq : (score_risk latest).1
      = max 0 (min 10 (10 - riskDeductions latest)) := by
    unfold score_risk riskDeductions
    dsimp only
    split_ifs <;> norm_num
  refine ⟨heq, ?_, ?_⟩
  · rw [heq]
    exact (clampRange 0 10 _ (by norm_num)).1
  · rw [heq]
    exact (clampRange 0 10 _ (by norm_num)).2

/-- C8.  `evaluate_single` is a pure function of its materialized
inputs: two calls on identical inputs return identical results —
dimension scores, composite total, and signal lists in the same order. -/
theorem evaluate_single_deterministic :
    ∀ code df fin fl nw g,
      evaluate_single code df fin fl nw g = evaluate_single code df fin fl nw g :=
  fun _ _ _ _ _ _ => rfl

set_option maxRecDepth 1000000 in
unseal Rat.ofScientific Rat.mul Rat.inv Rat.add Rat.sub in
/-- C4 counterexample: on the flat 60-day history the technical score is
not 0 — the Bollinger lower-band touch (+3) fires because both bands
collapse onto the constant close, and the low-volatility bonus (+1)
fires because ATR% is 0. -/
theorem flat_history_technical_score_nonzero :
    (score_technical flatFrame).1 ≠ 0 := by decide

set_option maxRecDepth 1000000 in
unseal Rat.ofScientific Rat.mul Rat.inv Rat.add Rat.sub in
/-- C4 (amended).  On the flat 60-day history the technical scorer
returns exactly 4 with the Bollinger-lower-touch and low-volatility
signals and nothing else — in particular no MA/RSI/KDJ signal fires —
and the zero-variance KDJ defaults hold: RSV defaults to 50, so
K = 50, D = 50 and J = 3·K − 2·D = 50. -/
theorem flat_history_technical_outcome :
    score_technical flatFrame
      = (4, [TechSignal.bollLower, TechSignal.lowVolBonus]) ∧
    lastO flatFrame.K = some 50 ∧ lastO flatFrame.D = some 50 ∧
    lastO flatFrame.J = some 50 :=
  ⟨by decide, by decide, by decide, by decide⟩

/-- C5.  Once the 20-row history gate is passed, the capital-flow path
dispatch depends only on the number of flow records: two records (a
non-empty list) still take the volume/price proxy Path B, three or more
take the real-data Path A; the paths are the two exclusive branches of
the dispatch. -/
theorem flow_path_selection :
    (∀ bars l, 20 ≤ bars.length → l.length = 2 →
      score_flow bars (some l) = scoreFlowProxy bars) ∧
    (∀ bars l, 20 ≤ bars.length → 3 ≤ l.length →
      score_flow bars (some l) = scoreFlowReal l) := by
  constructor
  · intro bars l h20 hl
    unfold score_flow
    rw [if_neg (by omega)]
    dsimp only
    rw [if_neg (by omega)]
  · intro bars l h20 hl
    unfold score_flow
    rw [if_neg (by omega)]
    dsimp only
    rw [if_pos hl]

/-- C5 witness at the flat history with constant flow records. -/
theorem flow_path_selection_witness :
    20 ≤ flatHist.length ∧ ([frec, frec].length = 2) ∧
    score_flow flatHist (some [frec, frec]) = scoreFlowProxy flatHist ∧
    score_flow flatHist (some [frec, frec, frec]) = scoreFlowReal [frec, frec, frec] :=
  ⟨by decide, by decide,
    flow_path_selection.1 flatHist [frec, frec] (by decide) (by decide),
    flow_path_selection.2 flatHist [frec, frec, frec] (by decide) (by decide)⟩

/-- One heat-pass step never changes the instrument identity used by the
boards lookup. -/
theorem adjustOne_code :
    ∀ heat bd r, (adjustOne heat bd r).code = r.code := by
  intro heat bd r
  dsimp only [adjustOne]
  split
  · rfl
  · rfl

/-- One heat-pass step never changes the percent change feeding the
concept means. -/
theorem adjustOne_pctChg :
    ∀ heat bd r, (adjustOne heat bd r).pctChg = r.pctChg := by
  intro heat bd r
  dsimp only [adjustOne]
  split
  · rfl
  · rfl

/-- The concept means recomputed on an already heat-adjusted batch are
the original ones: the pass touches neither `code` nor `pctChg`. -/
theorem conceptHeat_apply (bd : Boards) (rs : List EvalResult) :
    conceptHeat bd (apply_sector_heat bd rs) = conceptHeat bd rs := by
  funext c
  unfold conceptHeat
  have hp : conceptPcts bd (apply_sector_heat bd rs) c = conceptPcts bd rs c := by
    unfold conceptPcts apply_sector_heat
    rw [List.filterMap_map]
    congr 1
    funext r
    simp only [Function.comp, adjustOne_pctChg, adjustOne_code]
  rw [hp]

unseal Rat.ofScientific Rat.mul Rat.inv Rat.add Rat.sub in
/-- C7.  The sector-heat pass is not idempotent.  Concretely: on the
demo batch the three concept-7 instruments receive heat +6 and a second
application moves their totals again (26/6/6 to 32/12/12) while the
untagged instrument stays at 0.  Generally: a second pass re-applies
the per-instrument step with the identically recomputed concept means,
and every application adds the freshly computed heat score into the
running total of every tagged instrument — hence the double count. -/
theorem sector_heat_not_idempotent :
    ((apply_sector_heat demoBoards demoBatch).map (fun r => r.heat_score)
      = [6, 6, 6, 0]) ∧
    ((apply_sector_heat demoBoards demoBatch).map (fun r => r.total_score)
      = [26, 6, 6, 0]) ∧
    ((apply_sector_heat demoBoards
        (apply_sector_heat demoBoards demoBatch)).map (fun r => r.total_score)
      = [32, 12, 12, 0]) ∧
    (∀ bd rs, apply_sector_heat bd (apply_sector_heat bd rs)
      = (apply_sector_heat bd rs).map (adjustOne (conceptHeat bd rs) bd)) ∧
    (∀ heat bd r, (adjustOne heat bd r).total_score
      = r.total_score
        + (if (bd r.code).isEmpty then 0 else (adjustOne heat bd r).heat_score)) := by
  refine ⟨by decide, by decide, by decide, ?_, ?_⟩
  · intro bd rs
    show (apply_sector_heat bd rs).map
        (adjustOne (conceptHeat bd (apply_sector_heat bd rs)) bd) = _
    rw [conceptHeat_apply]
  · intro heat bd r
    by_cases hc : (bd r.code).isEmpty = true
    · simp [adjustOne, hc]
    · simp [adjustOne, hc]

/-- C9.  With fewer than 20 history rows the capital-flow scorer returns
the zero result before the Path A / Path B dispatch, even when three or
more real flow records are supplied. -/
theorem flow_minimum_rows :
    ∀ bars fl, bars.length < 20 → score_flow bars fl = (0, []) := by
  intro bars fl h
  unfold score_flow
  rw [if_pos h]

/-- C9 witness: 5 rows and 3 flow records still yield the zero result. -/
theorem flow_minimum_rows_witness :
    shortHist.length < 20 ∧
    score_flow shortHist (some [frec, frec, frec]) = (0, []) :=
  ⟨by decide, flow_minimum_rows shortHist (some [frec, frec, frec]) (by decide)⟩

/-- C10.  The heat pass leaves an instrument without concept tags
completely untouched: same heat score, same (empty) heat signals, same
total, and the same tier as assigned by the per-instrument
65/30/−45/−15 classification — its tier is not recomputed under
60/30/−40/−15. -/
theorem sector_heat_skips_untagged :
    ∀ (bd : Boards) (rs : List EvalResult) (i : ℕ) (r : EvalResult),
      rs[i]? = some r → bd r.code = [] →
      (apply_sector_heat bd rs)[i]? = some r := by
  intro bd rs i r hi hbd
  have hone : adjustOne (conceptHeat bd rs) bd r = r := by
    have hc : (bd r.code).isEmpty = true := by rw [hbd]; rfl
    simp [adjustOne, hc]
  simp [apply_sector_heat, List.getElem?_map, hi, hone]

/-- C10 witness: the untagged demo instrument is returned unchanged. -/
theorem sector_heat_skips_untagged_witness :
    ([exResult 3 5 0])[0]? = some (exResult 3 5 0) ∧
    demoBoards (exResult 3 5 0).code = [] ∧
    (apply_sector_heat demoBoards [exResult 3 5 0])[0]? = some (exResult 3 5 0) :=
  ⟨by decide, by decide,
    sector_heat_skips_untagged demoBoards [exResult 3 5 0] 0 (exResult 3 5 0)
      (by decide) (by decide)⟩

unseal Rat.ofScientific Rat.mul Rat.inv Rat.add Rat.sub in
/-- C1 witness: on the demo batch (all incoming heat scores zero) the
first adjusted instrument's heat score lies inside ±10. -/
theorem dimension_score_bounds_witness :
    demoAdjusted0 ∈ apply_sector_heat demoBoards demoBatch ∧
    -10 ≤ demoAdjusted0.heat_score ∧ demoAdjusted0.heat_score ≤ 10 :=
  ⟨by decide,
    (dimension_score_bounds.2.2.2.2.2.2.2.1 demoBoards demoBatch
      (by decide) demoAdjusted0 (by decide)).1,
    (dimension_score_bounds.2.2.2.2.2.2.2.1 demoBoards demoBatch
      (by decide) demoAdjusted0 (by decide)).2⟩
end StockEval
